import Mathlib

/-!
Shallow embedding of the token-statistics aggregation pipeline of
`src/src/server.ts` (soba-api).  JavaScript numbers are modelled as
rationals (`ℚ`), timestamps in milliseconds as integers (`ℤ`).  Each
external HTTP/RPC call is modelled by its outcome, passed in as data:
`none` stands for a request that failed (or returned a payload that the
code's truthiness / validity checks reject), `some v` for a successful
response carrying `v`.
-/

namespace Soba

/-- TokenStats snapshot as constructed by the `/token-stats` handler
(`server.ts` lines 321-349).  The derived `formatted` block of strings is a
pure function of these numeric fields and is omitted.  `lastUpdated` is the
construction time (the code stores an ISO string of `new Date()`). -/
structure TokenStats where
  price : ℚ
  totalSupply : ℚ
  circulatingSupply : ℚ
  founderBalance : ℚ
  holders : ℕ
  marketCap : ℚ
  totalValue : ℚ
  founderValue : ℚ
  toBeBurnedTokens : ℚ
  toBeBurnedValue : ℚ
  burnRate : ℚ
  lastUpdated : ℤ
deriving DecidableEq

/-- One token account as returned by the indexing service's
`getTokenAccounts` listing (consumed by `getHolderCount`).  `owner = none`
models an account whose `owner` field is missing or falsy (skipped by the
`if (account.owner)` guard, lines 208-212); the `amount` field is carried
by the upstream payload but never read by `getHolderCount`. -/
structure TokenAccount where
  owner : Option ℕ
  amount : ℚ
deriving DecidableEq

/-- One token account in a `getWalletBalance` response (lines 150-167).
`none` in a field models a value that fails the code's truthiness test
`if (!account.amount || !account.decimals)` (missing, null or falsy). -/
structure WalletAccount where
  amount : Option ℤ
  decimals : Option ℤ
deriving DecidableEq

/-- Cache slot: `new NodeCache({ stdTTL: 60 })` holding the single
`tokenStats` entry, together with the time (ms) at which it was stored.
node-cache keeps the expiry timestamp `storedAt + ttl`. -/
structure CacheState where
  entry : Option (TokenStats × ℤ)
deriving DecidableEq

/-- stdTTL of 60 seconds, in milliseconds. -/
def ttlMs : ℤ := 60000

/-- node-cache `get('tokenStats')`: returns the value while unexpired
(an entry is expired when its expiry timestamp is strictly below `now`). -/
def cacheGet (c : CacheState) (now : ℤ) : Option TokenStats :=
  match c.entry with
  | some (s, t) => if now ≤ t + ttlMs then some s else none
  | none => none

/-- node-cache `getTtl('tokenStats')`: the entry's expiry timestamp in ms,
`none` when the key is missing or expired. -/
def cacheGetTtl (c : CacheState) (now : ℤ) : Option ℤ :=
  match c.entry with
  | some (_, t) => if now ≤ t + ttlMs then some (t + ttlMs) else none
  | none => none

/-- Outcomes of the five external fetches launched by one refresh
(`Promise.all`, lines 255-261).  `supplyEndpoints` lists, per RPC endpoint
tried by `getTokenSupply`, either `some (rawAmount, decimals)` for a valid
response or `none` for a failed request or invalid payload. -/
structure FetchOutcomes where
  price : Option ℚ
  supplyEndpoints : List (Option (ℤ × ℕ))
  founderAccounts : Option (List WalletAccount)
  burnAccounts : Option (List WalletAccount)
  holderPages : Option (List (List TokenAccount))

/-- `getTokenPrice` (lines 80-92): returns `response.data?.soba?.usd || 0`
on success and `0` on any request error.  It never consults the cache. -/
def getTokenPrice (fetch : Option ℚ) : ℚ :=
  match fetch with
  | some p => p
  | none => 0

/-- `getTokenSupply` (lines 94-130): tries each RPC endpoint in order and
returns `Number(amount) / 10 ** decimals` from the first valid response;
if every endpoint fails, falls back to `statsCache.get('tokenStats')`'s
`totalSupply` when that entry exists and the field is truthy, else 0.
`cachedStats` is the result of that cache lookup at call time. -/
def getTokenSupply (endpoints : List (Option (ℤ × ℕ))) (cachedStats : Option TokenStats) : ℚ :=
  match endpoints with
  | [] =>
      match cachedStats with
      | some s => if s.totalSupply ≠ 0 then s.totalSupply else 0
      | none => 0
  | some (amt, dec) :: _ => (amt : ℚ) / 10 ^ dec
  | none :: rest => getTokenSupply rest cachedStats

/-- Per-account step of `getWalletBalance`'s `reduce` (lines 150-167):
skip accounts with a falsy `amount` or `decimals`, skip decimals outside
`[0, 20]`, otherwise add `rawAmount / 10 ** decimals`. -/
def accountBalance (sum : ℚ) (a : WalletAccount) : ℚ :=
  match a.amount, a.decimals with
  | some amt, some dec =>
      if dec < 0 ∨ 20 < dec then sum else sum + (amt : ℚ) / 10 ^ dec.toNat
  | _, _ => sum

/-- `getWalletBalance` (lines 132-180): 0 when the request fails or the
response has no `token_accounts`, else the sum of the per-account
balances. -/
def getWalletBalance (fetch : Option (List WalletAccount)) : ℚ :=
  match fetch with
  | none => 0
  | some accounts => accounts.foldl accountBalance 0

/-- `uniqueOwners.add(account.owner)` guarded by `if (account.owner)`
(lines 208-212). -/
def insertOwner (owners : Finset ℕ) (a : TokenAccount) : Finset ℕ :=
  match a.owner with
  | some o => insert o owners
  | none => owners

/-- The `while (true)` pagination loop of `getHolderCount`
(lines 188-218): the list holds the successive pages the indexing service
returns (an exhausted service returns an empty page, modelled by the end
of the list).  An empty page breaks before inserting; a page shorter than
the fixed page size 1000 breaks after inserting its owners. -/
def holderPagesLoop : List (List TokenAccount) → Finset ℕ → Finset ℕ
  | [], owners => owners
  | page :: rest, owners =>
      if page.length = 0 then owners
      else if page.length < 1000 then page.foldl insertOwner owners
      else holderPagesLoop rest (page.foldl insertOwner owners)

/-- `getHolderCount` (lines 182-226): 0 on a request error, else
`uniqueOwners.size` after the pagination loop. -/
def getHolderCount (fetch : Option (List (List TokenAccount))) : ℕ :=
  match fetch with
  | none => 0
  | some pages => (holderPagesLoop pages ∅).card

/-- Response of the `/token-stats` endpoint: HTTP status, the `error`
field (present only in the catch handler's body, line 370), the numeric
stats fields (all zero in the error body, lines 372-383), and the
`cached` / `cacheAge` annotations. -/
structure Response where
  status : ℕ
  error : Option String
  stats : TokenStats
  cached : Bool
  cacheAge : Option ℤ
deriving DecidableEq

/-- All-zero stats carried by the 500 error body (lines 372-383). -/
def zeroStats (now : ℤ) : TokenStats :=
  { price := 0, totalSupply := 0, circulatingSupply := 0, founderBalance := 0,
    holders := 0, marketCap := 0, totalValue := 0, founderValue := 0,
    toBeBurnedTokens := 0, toBeBurnedValue := 0, burnRate := 0, lastUpdated := now }

/-- Validation and derived-metric arithmetic of the handler
(lines 264-349), on the five resolved fetch values.  Each thrown
`new Error(msg)` becomes `.error msg`; the success branch builds the
`stats` object exactly as lines 321-349 do. -/
def computeStats (tokenPrice totalSupply founderHoldings burnWalletBalance : ℚ)
    (holders : ℕ) (now : ℤ) : Except String TokenStats :=
  if totalSupply ≤ 0 then .error "Invalid total supply"
  else if founderHoldings > totalSupply then .error "Founder balance exceeds total supply"
  else if burnWalletBalance > totalSupply then .error "Burn wallet balance exceeds total supply"
  else if max 0 (totalSupply - founderHoldings - burnWalletBalance) > totalSupply then
    .error "Circulating supply exceeds total supply"
  else if |founderHoldings + burnWalletBalance +
      max 0 (totalSupply - founderHoldings - burnWalletBalance) - totalSupply| > 1 then
    .error "Supply mismatch"
  else
    .ok { price := tokenPrice,
          totalSupply := totalSupply,
          circulatingSupply := max 0 (totalSupply - founderHoldings - burnWalletBalance),
          founderBalance := founderHoldings,
          holders := holders,
          marketCap := max 0 (totalSupply - founderHoldings - burnWalletBalance) * tokenPrice,
          totalValue := totalSupply * tokenPrice,
          founderValue := founderHoldings * tokenPrice,
          toBeBurnedTokens := burnWalletBalance,
          toBeBurnedValue := burnWalletBalance * tokenPrice,
          burnRate := burnWalletBalance / totalSupply * 100,
          lastUpdated := now }

/-- The cache-miss path of the handler: resolve the five fetches
(`Promise.all`, lines 255-261; `getTokenSupply` reads the cache itself at
line 122, which on this path is the same expired/absent entry), run the
validation and arithmetic, then either cache and return the snapshot with
`cached: false` (lines 362-366) or answer 500 with the error body leaving
the cache untouched (lines 367-400). -/
def refresh (f : FetchOutcomes) (c : CacheState) (now : ℤ) : Response × CacheState :=
  match computeStats (getTokenPrice f.price)
      (getTokenSupply f.supplyEndpoints (cacheGet c now))
      (getWalletBalance f.founderAccounts)
      (getWalletBalance f.burnAccounts)
      (getHolderCount f.holderPages) now with
  | .ok stats =>
      ({ status := 200, error := none, stats := stats, cached := false, cacheAge := none },
       { entry := some (stats, now) })
  | .error msg =>
      ({ status := 500, error := some msg, stats := zeroStats now, cached := false,
         cacheAge := none }, c)

/-- The `/token-stats` handler (lines 235-401).  On a cache hit it returns
the cached object spread with `cached: true` and
`cacheAge: cacheAge ? Math.floor((cacheAge - Date.now()) / 1000) : null`
where `cacheAge` is `statsCache.getTtl('tokenStats')`, i.e. the entry's
expiry timestamp (lines 241-251); otherwise it refreshes. -/
def handleTokenStats (f : FetchOutcomes) (c : CacheState) (now : ℤ) : Response × CacheState :=
  match cacheGet c now with
  | some s =>
      ({ status := 200, error := none, stats := s, cached := true,
         cacheAge :=
           match cacheGetTtl c now with
           | some exp => if exp = 0 then none else some (Int.fdiv (exp - now) 1000)
           | none => none }, c)
  | none => refresh f c now

def emptyCache : CacheState := ⟨none⟩

/-- Fetch outcomes in which every source succeeds with consistent data:
price 2, supply 1000, founder balance 100, burn-wallet balance 50, two
distinct holders. -/
def fetchOk : FetchOutcomes :=
  { price := some 2,
    supplyEndpoints := [some (10000, 1)],
    founderAccounts := some [⟨some 1000, some 1⟩],
    burnAccounts := some [⟨some 500, some 1⟩],
    holderPages := some [[⟨some 1, 5⟩, ⟨some 2, 5⟩]] }

/-- Fetch outcomes whose resolved values (supply 10, founder 8, burn 8)
pass every per-field validation but fail the supply-conservation sum
check: circulating = max(0, 10-8-8) = 0 and |8+8+0-10| = 6 > 1. -/
def fetchMismatch : FetchOutcomes :=
  { price := some 1,
    supplyEndpoints := [some (100, 1)],
    founderAccounts := some [⟨some 80, some 1⟩],
    burnAccounts := some [⟨some 80, some 1⟩],
    holderPages := some [] }

/-- Every data source fails. -/
def fetchAllFail : FetchOutcomes :=
  { price := none,
    supplyEndpoints := [none, none, none],
    founderAccounts := none,
    burnAccounts := none,
    holderPages := none }

/-- Like `fetchOk` but the price fetch fails terminally. -/
def fetchNoPrice : FetchOutcomes :=
  { fetchOk with price := none }

/-- A plausible previously-aggregated snapshot with price 7. -/
def prevStats7 : TokenStats :=
  { price := 7, totalSupply := 1000, circulatingSupply := 850,
    founderBalance := 100, holders := 2, marketCap := 5950, totalValue := 7000,
    founderValue := 700, toBeBurnedTokens := 50, toBeBurnedValue := 350,
    burnRate := 5, lastUpdated := -10 }

/-- Cache slot holding `prevStats7`, stored at time 0. -/
def prevCache : CacheState := ⟨some (prevStats7, 0)⟩

/-- A simulated full page for the indexing service: `n` accounts whose
owners are `k, k+1, …, k+n-1`, each with balance 1. -/
def mkPage (k n : ℕ) : List TokenAccount :=
  (List.range n).map fun i => ⟨some (k + i), 1⟩

/-- Following the spec's words only (§3 `holderCount`, §4.2): the count of
distinct owner addresses holding a positive balance among the enumerated
token accounts.  Used solely to compare the spec's notion with
`getHolderCount`; the source never computes this. -/
def specDistinctPositiveHolders (pages : List (List TokenAccount)) : ℕ :=
  (((pages.flatten).filter fun a => decide (0 < a.amount)).filterMap
    TokenAccount.owner).toFinset.card

/-- Re-tag every enumerated account's balance (owners untouched). -/
def mapAmounts (g : ℚ → ℚ) (pages : List (List TokenAccount)) :
    List (List TokenAccount) :=
  pages.map (List.map fun a => ⟨a.owner, g a.amount⟩)

/-- Interleaving model of concurrent `/token-stats` requests, at the
granularity the code fixes: a request's cache check (line 242) reads only
`statsCache` — the code keeps no record of an in-flight refresh that a
later arrival could join — and on a miss the request immediately launches
its own full upstream fan-out (lines 255-261); the cache is written only
when that refresh completes (line 363).  `cache` says whether the slot
holds an unexpired snapshot, `inFlight` the ids of requests whose own
refresh is still running, `refreshes` how many upstream refresh cycles
have been started. -/
structure ConcState where
  cache : Bool
  inFlight : Finset ℕ
  refreshes : ℕ
deriving DecidableEq

/-- An atomic event: a request arrives and runs its cache check, or a
running refresh completes and stores its snapshot. -/
inductive ConcEvent where
  | arrive (rid : ℕ)
  | finish (rid : ℕ)
deriving DecidableEq

/-- One step: an arriving request is served from the cache when it holds
a snapshot, else starts its own refresh cycle; a completing refresh
writes the cache. -/
def concStep (s : ConcState) : ConcEvent → ConcState
  | .arrive r =>
      if s.cache then s
      else { s with inFlight := insert r s.inFlight, refreshes := s.refreshes + 1 }
  | .finish r =>
      if r ∈ s.inFlight then
        { cache := true, inFlight := s.inFlight.erase r, refreshes := s.refreshes }
      else s

def concRun (s : ConcState) (es : List ConcEvent) : ConcState := es.foldl concStep s

lemma refresh_ok {f : FetchOutcomes} {c : CacheState} {now : ℤ} {st : TokenStats}
    (h : computeStats (getTokenPrice f.price)
      (getTokenSupply f.supplyEndpoints (cacheGet c now))
      (getWalletBalance f.founderAccounts)
      (getWalletBalance f.burnAccounts)
      (getHolderCount f.holderPages) now = .ok st) :
    refresh f c now =
      ({ status := 200, error := none, stats := st, cached := false, cacheAge := none },
       { entry := some (st, now) }) := by
  unfold refresh
  rw [h]

lemma refresh_error {f : FetchOutcomes} {c : CacheState} {now : ℤ} {msg : String}
    (h : computeStats (getTokenPrice f.price)
      (getTokenSupply f.supplyEndpoints (cacheGet c now))
      (getWalletBalance f.founderAccounts)
      (getWalletBalance f.burnAccounts)
      (getHolderCount f.holderPages) now = .error msg) :
    refresh f c now =
      ({ status := 500, error := some msg, stats := zeroStats now, cached := false,
         cacheAge := none }, c) := by
  unfold refresh
  rw [h]

lemma computeStats_ok_fields {p s fd b : ℚ} {hn : ℕ} {now : ℤ} {st : TokenStats}
    (h : computeStats p s fd b hn now = .ok st) :
    st.price = p ∧ st.totalSupply = s ∧ st.founderBalance = fd ∧
    st.toBeBurnedTokens = b ∧ st.holders = hn ∧ st.lastUpdated = now ∧
    st.circulatingSupply = max 0 (s - fd - b) ∧
    st.marketCap = max 0 (s - fd - b) * p ∧ st.totalValue = s * p ∧
    st.founderValue = fd * p ∧ st.toBeBurnedValue = b * p ∧
    st.burnRate = b / s * 100 := by
  unfold computeStats at h
  split_ifs at h
  injection h with h
  subst h
  repeat' constructor

lemma computeStats_ok_bounds {p s fd b : ℚ} {hn : ℕ} {now : ℤ} {st : TokenStats}
    (h : computeStats p s fd b hn now = .ok st) :
    0 < s ∧ fd ≤ s ∧ b ≤ s ∧ max 0 (s - fd - b) ≤ s := by
  unfold computeStats at h
  split_ifs at h with h1 h2 h3 h4 h5
  push_neg at h1 h2 h3 h4
  exact ⟨h1, h2, h3, h4⟩

lemma computeStats_mismatch {p s fd b : ℚ} {hn : ℕ} {now : ℤ}
    (h1 : 0 < s) (h2 : fd ≤ s) (h3 : b ≤ s) (h4 : max 0 (s - fd - b) ≤ s)
    (h5 : |fd + b + max 0 (s - fd - b) - s| > 1) :
    computeStats p s fd b hn now = .error "Supply mismatch" := by
  unfold computeStats
  rw [if_neg (not_le.mpr h1), if_neg (not_lt.mpr h2), if_neg (not_lt.mpr h3),
    if_neg (not_lt.mpr h4), if_pos h5]

lemma handle_miss {f : FetchOutcomes} {c : CacheState} {now : ℤ}
    (h : cacheGet c now = none) : handleTokenStats f c now = refresh f c now := by
  unfold handleTokenStats
  rw [h]

lemma handle_hit {f : FetchOutcomes} {c : CacheState} {now : ℤ} {s : TokenStats}
    (h : cacheGet c now = some s) :
    handleTokenStats f c now =
      ({ status := 200, error := none, stats := s, cached := true,
         cacheAge :=
           match cacheGetTtl c now with
           | some exp => if exp = 0 then none else some (Int.fdiv (exp - now) 1000)
           | none => none }, c) := by
  unfold handleTokenStats
  rw [h]

lemma getTokenSupply_all_failed (endpoints : List (Option (ℤ × ℕ)))
    (h : ∀ e ∈ endpoints, e = none) : getTokenSupply endpoints none = 0 := by
  induction endpoints with
  | nil => rfl
  | cons e rest ih =>
      have he : e = none := h e (List.mem_cons_self e rest)
      subst he
      exact ih fun x hx => h x (List.mem_cons_of_mem _ hx)

/-- Claim C4: on a successful refresh the snapshot's derived fields are
exactly the formulas of `server.ts` lines 286-303. -/
theorem refresh_derived_fields (f : FetchOutcomes) (c : CacheState) (now : ℤ)
    (hok : (refresh f c now).1.status = 200) :
    (refresh f c now).1.stats.circulatingSupply =
      max 0 ((refresh f c now).1.stats.totalSupply -
        (refresh f c now).1.stats.founderBalance -
        (refresh f c now).1.stats.toBeBurnedTokens) ∧
    (refresh f c now).1.stats.marketCap =
      (refresh f c now).1.stats.circulatingSupply * (refresh f c now).1.stats.price ∧
    (refresh f c now).1.stats.totalValue =
      (refresh f c now).1.stats.totalSupply * (refresh f c now).1.stats.price ∧
    (refresh f c now).1.stats.founderValue =
      (refresh f c now).1.stats.founderBalance * (refresh f c now).1.stats.price ∧
    (refresh f c now).1.stats.toBeBurnedValue =
      (refresh f c now).1.stats.toBeBurnedTokens * (refresh f c now).1.stats.price ∧
    (refresh f c now).1.stats.burnRate =
      (refresh f c now).1.stats.toBeBurnedTokens / (refresh f c now).1.stats.totalSupply
        * 100 := by
  rcases hE : computeStats (getTokenPrice f.price)
      (getTokenSupply f.supplyEndpoints (cacheGet c now))
      (getWalletBalance f.founderAccounts)
      (getWalletBalance f.burnAccounts)
      (getHolderCount f.holderPages) now with msg | st
  · rw [refresh_error hE] at hok
    simp at hok
  · obtain ⟨hp, hs, hfd, hb, _, _, hcirc, hmc, htv, hfv, hbv, hbr⟩ :=
      computeStats_ok_fields hE
    rw [refresh_ok hE]
    simp only []
    exact ⟨by rw [hcirc, hs, hfd, hb], by rw [hmc, hcirc, hp], by rw [htv, hs, hp],
      by rw [hfv, hfd, hp], by rw [hbv, hb, hp], by rw [hbr, hb, hs]⟩

theorem refresh_derived_fields_witness :
    (refresh fetchOk emptyCache 0).1.stats.circulatingSupply =
      max 0 ((refresh fetchOk emptyCache 0).1.stats.totalSupply -
        (refresh fetchOk emptyCache 0).1.stats.founderBalance -
        (refresh fetchOk emptyCache 0).1.stats.toBeBurnedTokens) ∧
    (refresh fetchOk emptyCache 0).1.stats.marketCap =
      (refresh fetchOk emptyCache 0).1.stats.circulatingSupply *
        (refresh fetchOk emptyCache 0).1.stats.price ∧
    (refresh fetchOk emptyCache 0).1.stats.totalValue =
      (refresh fetchOk emptyCache 0).1.stats.totalSupply *
        (refresh fetchOk emptyCache 0).1.stats.price ∧
    (refresh fetchOk emptyCache 0).1.stats.founderValue =
      (refresh fetchOk emptyCache 0).1.stats.founderBalance *
        (refresh fetchOk emptyCache 0).1.stats.price ∧
    (refresh fetchOk emptyCache 0).1.stats.toBeBurnedValue =
      (refresh fetchOk emptyCache 0).1.stats.toBeBurnedTokens *
        (refresh fetchOk emptyCache 0).1.stats.price ∧
    (refresh fetchOk emptyCache 0).1.stats.burnRate =
      (refresh fetchOk emptyCache 0).1.stats.toBeBurnedTokens /
        (refresh fetchOk emptyCache 0).1.stats.totalSupply * 100 :=
  refresh_derived_fields fetchOk emptyCache 0 (by
    norm_num [refresh, fetchOk, emptyCache, computeStats, getTokenPrice, getTokenSupply,
      getWalletBalance, accountBalance, getHolderCount, holderPagesLoop, insertOwner,
      cacheGet])

/-- Claim C1 counterexample: a refresh whose resolved inputs (supply 10,
founder 8, burn 8) fail the supply-conservation check is answered with a
500 error and nothing is cached, refuting "still returns and caches the
snapshot". -/
theorem supplyMismatch_rejects_cex :
    (refresh fetchMismatch emptyCache 0).1.status = 500 ∧
    (refresh fetchMismatch emptyCache 0).1.error = some "Supply mismatch" ∧
    (refresh fetchMismatch emptyCache 0).2.entry = none := by
  norm_num [refresh, fetchMismatch, emptyCache, computeStats, getTokenPrice,
    getTokenSupply, getWalletBalance, accountBalance, getHolderCount,
    holderPagesLoop, cacheGet, zeroStats, abs]

/-- Claim C1 (amended): when the resolved inputs pass the per-field
validations but fail the supply-conservation check, the refresh throws
"Supply mismatch": the request gets a 500 error body and the cache is left
untouched. -/
theorem supplyMismatch_rejected (f : FetchOutcomes) (c : CacheState) (now : ℤ)
    (h1 : 0 < getTokenSupply f.supplyEndpoints (cacheGet c now))
    (h2 : getWalletBalance f.founderAccounts ≤
      getTokenSupply f.supplyEndpoints (cacheGet c now))
    (h3 : getWalletBalance f.burnAccounts ≤
      getTokenSupply f.supplyEndpoints (cacheGet c now))
    (h4 : max 0 (getTokenSupply f.supplyEndpoints (cacheGet c now) -
        getWalletBalance f.founderAccounts - getWalletBalance f.burnAccounts) ≤
      getTokenSupply f.supplyEndpoints (cacheGet c now))
    (h5 : |getWalletBalance f.founderAccounts + getWalletBalance f.burnAccounts +
        max 0 (getTokenSupply f.supplyEndpoints (cacheGet c now) -
          getWalletBalance f.founderAccounts - getWalletBalance f.burnAccounts) -
        getTokenSupply f.supplyEndpoints (cacheGet c now)| > 1) :
    (refresh f c now).1.status = 500 ∧
    (refresh f c now).1.error = some "Supply mismatch" ∧
    (refresh f c now).2 = c := by
  rw [refresh_error (computeStats_mismatch h1 h2 h3 h4 h5)]
  exact ⟨rfl, rfl, rfl⟩

theorem supplyMismatch_rejected_witness :
    (refresh fetchMismatch emptyCache 0).1.status = 500 ∧
    (refresh fetchMismatch emptyCache 0).1.error = some "Supply mismatch" ∧
    (refresh fetchMismatch emptyCache 0).2 = emptyCache :=
  supplyMismatch_rejected fetchMismatch emptyCache 0
    (by norm_num [getTokenSupply, fetchMismatch, emptyCache, cacheGet])
    (by norm_num [getTokenSupply, getWalletBalance, accountBalance, fetchMismatch,
      emptyCache, cacheGet])
    (by norm_num [getTokenSupply, getWalletBalance, accountBalance, fetchMismatch,
      emptyCache, cacheGet])
    (by norm_num [getTokenSupply, getWalletBalance, accountBalance, fetchMismatch,
      emptyCache, cacheGet])
    (by norm_num [getTokenSupply, getWalletBalance, accountBalance, fetchMismatch,
      emptyCache, cacheGet, abs])

/-- Claim C6: when every data source fails and no cached snapshot exists,
the endpoint answers 500 with a machine-readable error body (and, being a
total function of its inputs, cannot crash the process). -/
theorem allSourcesFailed_500 (f : FetchOutcomes) (c : CacheState) (now : ℤ)
    (hp : f.price = none)
    (hs : ∀ e ∈ f.supplyEndpoints, e = none)
    (hf : f.founderAccounts = none)
    (hb : f.burnAccounts = none)
    (hh : f.holderPages = none)
    (hc : c.entry = none) :
    (handleTokenStats f c now).1.status = 500 ∧
    ((handleTokenStats f c now).1.error).isSome = true ∧
    (handleTokenStats f c now).1.status ≠ 200 ∧
    (handleTokenStats f c now).2.entry = none := by
  have hmiss : cacheGet c now = none := by simp [cacheGet, hc]
  rw [handle_miss hmiss]
  have hsupply : getTokenSupply f.supplyEndpoints (cacheGet c now) = 0 := by
    rw [hmiss]
    exact getTokenSupply_all_failed _ hs
  have hE : computeStats (getTokenPrice f.price)
      (getTokenSupply f.supplyEndpoints (cacheGet c now))
      (getWalletBalance f.founderAccounts)
      (getWalletBalance f.burnAccounts)
      (getHolderCount f.holderPages) now = .error "Invalid total supply" := by
    rw [hsupply]
    unfold computeStats
    rw [if_pos le_rfl]
  rw [refresh_error hE]
  exact ⟨rfl, rfl, by norm_num, hc⟩

theorem allSourcesFailed_500_witness :
    (handleTokenStats fetchAllFail emptyCache 0).1.status = 500 ∧
    ((handleTokenStats fetchAllFail emptyCache 0).1.error).isSome = true ∧
    (handleTokenStats fetchAllFail emptyCache 0).1.status ≠ 200 ∧
    (handleTokenStats fetchAllFail emptyCache 0).2.entry = none :=
  allSourcesFailed_500 fetchAllFail emptyCache 0 rfl
    (by intro e he; simp [fetchAllFail] at he; simp [he]) rfl rfl rfl rfl

/-- Claim C10: every freshly computed 200 response satisfies the four
supply bounds, and resolved inputs violating any bound are answered with
an error response instead of a snapshot. -/
theorem fresh_response_bounds (f : FetchOutcomes) (c : CacheState) (now : ℤ) :
    ((refresh f c now).1.status = 200 →
      0 < (refresh f c now).1.stats.totalSupply ∧
      (refresh f c now).1.stats.founderBalance ≤ (refresh f c now).1.stats.totalSupply ∧
      (refresh f c now).1.stats.toBeBurnedTokens ≤
        (refresh f c now).1.stats.totalSupply ∧
      (refresh f c now).1.stats.circulatingSupply ≤
        (refresh f c now).1.stats.totalSupply) ∧
    ((getTokenSupply f.supplyEndpoints (cacheGet c now) ≤ 0 ∨
      getTokenSupply f.supplyEndpoints (cacheGet c now) <
        getWalletBalance f.founderAccounts ∨
      getTokenSupply f.supplyEndpoints (cacheGet c now) <
        getWalletBalance f.burnAccounts ∨
      getTokenSupply f.supplyEndpoints (cacheGet c now) <
        max 0 (getTokenSupply f.supplyEndpoints (cacheGet c now) -
          getWalletBalance f.founderAccounts - getWalletBalance f.burnAccounts)) →
      (refresh f c now).1.status = 500 ∧
      ((refresh f c now).1.error).isSome = true) := by
  rcases hE : computeStats (getTokenPrice f.price)
      (getTokenSupply f.supplyEndpoints (cacheGet c now))
      (getWalletBalance f.founderAccounts)
      (getWalletBalance f.burnAccounts)
      (getHolderCount f.holderPages) now with msg | st
  · constructor
    · intro hok
      rw [refresh_error hE] at hok
      simp at hok
    · intro _
      rw [refresh_error hE]
      exact ⟨rfl, rfl⟩
  · obtain ⟨hs0, hfd, hb, hcirc⟩ := computeStats_ok_bounds hE
    obtain ⟨_, hs, hfd', hb', _, _, hcirc', _⟩ := computeStats_ok_fields hE
    constructor
    · intro _
      rw [refresh_ok hE]
      simp only []
      refine ⟨?_, ?_, ?_, ?_⟩
      · rw [hs]; exact hs0
      · rw [hs, hfd']; exact hfd
      · rw [hs, hb']; exact hb
      · rw [hs, hcirc']; exact hcirc
    · intro hviol
      rcases hviol with h | h | h | h
      · exact absurd hs0 (not_lt.mpr h)
      · exact absurd hfd (not_le.mpr h)
      · exact absurd hb (not_le.mpr h)
      · exact absurd hcirc (not_le.mpr h)

theorem fresh_response_bounds_witness :
    (0 < (refresh fetchOk emptyCache 0).1.stats.totalSupply ∧
      (refresh fetchOk emptyCache 0).1.stats.founderBalance ≤
        (refresh fetchOk emptyCache 0).1.stats.totalSupply ∧
      (refresh fetchOk emptyCache 0).1.stats.toBeBurnedTokens ≤
        (refresh fetchOk emptyCache 0).1.stats.totalSupply ∧
      (refresh fetchOk emptyCache 0).1.stats.circulatingSupply ≤
        (refresh fetchOk emptyCache 0).1.stats.totalSupply) ∧
    ((refresh fetchAllFail emptyCache 0).1.status = 500 ∧
      ((refresh fetchAllFail emptyCache 0).1.error).isSome = true) :=
  ⟨(fresh_response_bounds fetchOk emptyCache 0).1 (by
      norm_num [refresh, fetchOk, emptyCache, computeStats, getTokenPrice,
        getTokenSupply, getWalletBalance, accountBalance, getHolderCount,
        holderPagesLoop, insertOwner, cacheGet]),
   (fresh_response_bounds fetchAllFail emptyCache 0).2 (by
      left
      norm_num [getTokenSupply, fetchAllFail, emptyCache, cacheGet])⟩

/-- Claim C5 counterexample: the price source fails while a previously
cached snapshot with price 7 sits in the slot (expired, hence the
refresh); the fresh snapshot's price is 0, not the cached 7, and no
degraded marker exists anywhere in the response shape. -/
theorem priceFallback_ignores_cache_cex :
    (handleTokenStats fetchNoPrice prevCache 61000).1.status = 200 ∧
    prevStats7.price = 7 ∧
    (handleTokenStats fetchNoPrice prevCache 61000).1.stats.price = 0 ∧
    (handleTokenStats fetchNoPrice prevCache 61000).1.stats.price ≠
      prevStats7.price := by
  norm_num [handleTokenStats, refresh, fetchNoPrice, fetchOk, prevCache, prevStats7,
    computeStats, getTokenPrice, getTokenSupply, getWalletBalance, accountBalance,
    getHolderCount, holderPagesLoop, insertOwner, cacheGet, cacheGetTtl, ttlMs]

/-- Claim C5 (amended): when the price fetch fails terminally,
`getTokenPrice` returns 0 and any snapshot the refresh still produces
carries price 0, whether or not a previous snapshot exists: the cached
price is never substituted and no degraded marker is produced. -/
theorem priceFailure_defaults_zero (f : FetchOutcomes) (c : CacheState) (now : ℤ)
    (hp : f.price = none)
    (hok : (refresh f c now).1.status = 200) :
    (refresh f c now).1.stats.price = 0 := by
  rcases hE : computeStats (getTokenPrice f.price)
      (getTokenSupply f.supplyEndpoints (cacheGet c now))
      (getWalletBalance f.founderAccounts)
      (getWalletBalance f.burnAccounts)
      (getHolderCount f.holderPages) now with msg | st
  · rw [refresh_error hE] at hok
    simp at hok
  · rw [refresh_ok hE]
    have hprice := (computeStats_ok_fields hE).1
    simp only []
    rw [hprice, hp]
    rfl

theorem priceFailure_defaults_zero_witness :
    (refresh fetchNoPrice prevCache 61000).1.stats.price = 0 :=
  priceFailure_defaults_zero fetchNoPrice prevCache 61000 rfl (by
    norm_num [refresh, fetchNoPrice, fetchOk, prevCache, prevStats7, computeStats,
      getTokenPrice, getTokenSupply, getWalletBalance, accountBalance,
      getHolderCount, holderPagesLoop, insertOwner, cacheGet, ttlMs])

/-- Claim C2 counterexample: a fresh call followed by a cache-hit call in
the same TTL window returns the same stats payload, but the two responses
also differ in the `cached` flag (false, then true), not only in
`cacheAge`. -/
theorem cacheHit_cached_flag_differs_cex :
    (handleTokenStats fetchOk emptyCache 0).1.status = 200 ∧
    (handleTokenStats fetchAllFail
        (handleTokenStats fetchOk emptyCache 0).2 1000).1.stats =
      (handleTokenStats fetchOk emptyCache 0).1.stats ∧
    (handleTokenStats fetchOk emptyCache 0).1.cached ≠
      (handleTokenStats fetchAllFail
        (handleTokenStats fetchOk emptyCache 0).2 1000).1.cached := by
  norm_num [handleTokenStats, refresh, fetchOk, fetchAllFail, emptyCache, computeStats,
    getTokenPrice, getTokenSupply, getWalletBalance, accountBalance, getHolderCount,
    holderPagesLoop, insertOwner, cacheGet, cacheGetTtl, ttlMs]

/-- Claim C2 (amended): after a successful refresh at `now`, any call up
to the TTL boundary is served from the cache with no dependence on the
external fetch outcomes, with the identical stats payload; the responses
differ only in the `cached` and `cacheAge` annotations. -/
theorem cacheHit_idempotent_modulo_flags (f1 f2 g : FetchOutcomes) (c : CacheState)
    (now t1 : ℤ)
    (hmiss : cacheGet c now = none)
    (hok : (handleTokenStats f1 c now).1.status = 200)
    (hwin : t1 ≤ now + 60000) :
    handleTokenStats f2 (handleTokenStats f1 c now).2 t1 =
      handleTokenStats g (handleTokenStats f1 c now).2 t1 ∧
    (handleTokenStats f2 (handleTokenStats f1 c now).2 t1).1.stats =
      (handleTokenStats f1 c now).1.stats ∧
    (handleTokenStats f2 (handleTokenStats f1 c now).2 t1).1.status = 200 ∧
    (handleTokenStats f2 (handleTokenStats f1 c now).2 t1).1.error = none ∧
    (handleTokenStats f2 (handleTokenStats f1 c now).2 t1).1.cached = true ∧
    (handleTokenStats f1 c now).1.cached = false := by
  rw [handle_miss hmiss] at hok ⊢
  rcases hE : computeStats (getTokenPrice f1.price)
      (getTokenSupply f1.supplyEndpoints (cacheGet c now))
      (getWalletBalance f1.founderAccounts)
      (getWalletBalance f1.burnAccounts)
      (getHolderCount f1.holderPages) now with msg | st
  · rw [refresh_error hE] at hok
    simp at hok
  · rw [refresh_ok hE]
    have hget : cacheGet ⟨some (st, now)⟩ t1 = some st := by
      simp [cacheGet, ttlMs, hwin]
    rw [@handle_hit f2 ⟨some (st, now)⟩ t1 st hget,
      @handle_hit g ⟨some (st, now)⟩ t1 st hget]
    exact ⟨rfl, rfl, rfl, rfl, rfl, rfl⟩

theorem cacheHit_idempotent_modulo_flags_witness :
    handleTokenStats fetchAllFail (handleTokenStats fetchOk emptyCache 0).2 1000 =
      handleTokenStats fetchMismatch (handleTokenStats fetchOk emptyCache 0).2 1000 ∧
    (handleTokenStats fetchAllFail
        (handleTokenStats fetchOk emptyCache 0).2 1000).1.stats =
      (handleTokenStats fetchOk emptyCache 0).1.stats ∧
    (handleTokenStats fetchAllFail
        (handleTokenStats fetchOk emptyCache 0).2 1000).1.status = 200 ∧
    (handleTokenStats fetchAllFail
        (handleTokenStats fetchOk emptyCache 0).2 1000).1.error = none ∧
    (handleTokenStats fetchAllFail
        (handleTokenStats fetchOk emptyCache 0).2 1000).1.cached = true ∧
    (handleTokenStats fetchOk emptyCache 0).1.cached = false :=
  cacheHit_idempotent_modulo_flags fetchOk fetchAllFail fetchMismatch emptyCache 0 1000
    (by simp [cacheGet, emptyCache])
    (by norm_num [handleTokenStats, refresh, fetchOk, emptyCache, computeStats,
      getTokenPrice, getTokenSupply, getWalletBalance, accountBalance, getHolderCount,
      holderPagesLoop, insertOwner, cacheGet])
    (by norm_num)

/-- Claim C7: the canonical cache-hit path computes
`Math.floor((getTtl - now) / 1000)`, the seconds remaining until expiry,
not `now - fetchedAt`.  With a snapshot stored at 0 ms, hits at 10 s and
20 s report 50 then 40: decreasing, and 50 is not the 10 the claim
predicts (the `/api/token-stats` revision embedded in
`src/src/utils/format.ts` returns `now - cache.timestamp` instead). -/
theorem cacheAge_reports_remaining_ttl :
    (handleTokenStats fetchAllFail prevCache 10000).1.cacheAge = some 50 ∧
    (handleTokenStats fetchAllFail prevCache 20000).1.cacheAge = some 40 ∧
    Int.fdiv (10000 - 0) 1000 = 10 ∧ (50 : ℤ) ≠ 10 ∧ (40 : ℤ) < 50 := by
  refine ⟨?_, ?_, by decide, by decide, by decide⟩
  · rw [@handle_hit fetchAllFail prevCache 10000 prevStats7
      (by simp [cacheGet, prevCache, ttlMs])]
    simp [cacheGetTtl, prevCache, ttlMs]
  · rw [@handle_hit fetchAllFail prevCache 20000 prevStats7
      (by simp [cacheGet, prevCache, ttlMs])]
    simp [cacheGetTtl, prevCache, ttlMs]

lemma toFinset_map_list (l : List ℕ) (f : ℕ → ℕ) :
    (l.map f).toFinset = l.toFinset.image f := by
  induction l with
  | nil => simp
  | cons a t ih => simp [ih]

lemma toFinset_range_list (n : ℕ) : (List.range n).toFinset = Finset.range n := by
  ext x
  simp

lemma foldl_insertOwner (page : List TokenAccount) (s : Finset ℕ) :
    page.foldl insertOwner s = s ∪ (page.filterMap TokenAccount.owner).toFinset := by
  induction page generalizing s with
  | nil => simp
  | cons a l ih =>
      cases ha : a.owner with
      | none => simp [List.foldl_cons, insertOwner, ha, ih]
      | some o =>
          simp [List.foldl_cons, insertOwner, ha, ih, Finset.insert_union,
            Finset.union_insert]

lemma mkPage_length (k n : ℕ) : (mkPage k n).length = n := by
  simp [mkPage]

lemma mkPage_owners (k n : ℕ) :
    ((mkPage k n).filterMap TokenAccount.owner).toFinset = Finset.Ico k (k + n) := by
  unfold mkPage
  rw [List.filterMap_map]
  have h : (TokenAccount.owner ∘ fun i : ℕ =>
      (⟨some (k + i), 1⟩ : TokenAccount)) = some ∘ fun i : ℕ => k + i := rfl
  rw [h, List.filterMap_eq_map, toFinset_map_list, toFinset_range_list,
    Finset.range_eq_Ico, Finset.image_add_left_Ico]
  simp

lemma holderPagesLoop_cons_full (page : List TokenAccount)
    (rest : List (List TokenAccount)) (s : Finset ℕ) (h : page.length = 1000) :
    holderPagesLoop (page :: rest) s = holderPagesLoop rest (page.foldl insertOwner s) := by
  simp only [holderPagesLoop]
  rw [h]
  norm_num

lemma holderPagesLoop_cons_short (page : List TokenAccount)
    (rest : List (List TokenAccount)) (s : Finset ℕ)
    (h0 : page.length ≠ 0) (h : page.length < 1000) :
    holderPagesLoop (page :: rest) s = page.foldl insertOwner s := by
  simp only [holderPagesLoop]
  rw [if_neg h0, if_pos h]

/-- Claim C3: on a simulated indexing service answering pages of 1000,
1000 and 400 owner entries in which the 400-page is final (shorter than
the page size) and 50 entries of the second page repeat owners of the
first, the enumerator stops after the third page — any further pages are
never requested — and reports 2350 unique holders. -/
theorem holderCount_three_pages_2350 (rest : List (List TokenAccount)) :
    getHolderCount (some (mkPage 0 1000 :: mkPage 950 1000 :: mkPage 1950 400 :: rest))
      = 2350 := by
  show (holderPagesLoop (mkPage 0 1000 :: mkPage 950 1000 :: mkPage 1950 400 :: rest)
    ∅).card = 2350
  rw [holderPagesLoop_cons_full _ _ _ (mkPage_length 0 1000),
    holderPagesLoop_cons_full _ _ _ (mkPage_length 950 1000),
    holderPagesLoop_cons_short _ _ _ (by rw [mkPage_length]; norm_num)
      (by rw [mkPage_length]; norm_num),
    foldl_insertOwner, foldl_insertOwner, foldl_insertOwner,
    mkPage_owners, mkPage_owners, mkPage_owners,
    Finset.empty_union, Finset.union_assoc]
  rw [show (0 + 1000 : ℕ) = 1000 by norm_num, show (950 + 1000 : ℕ) = 1950 by norm_num,
    show (1950 + 400 : ℕ) = 2350 by norm_num,
    Finset.Ico_union_Ico_eq_Ico (by norm_num) (by norm_num),
    Finset.Ico_union_Ico' (by norm_num) (by norm_num),
    Nat.card_Ico]
  omega

/-- Claim C8 counterexample: a single enumerated account whose owner 7
holds balance 0 — `getHolderCount` counts the owner anyway (the code
never reads the `amount` field), while the spec's positive-balance count
is 0. -/
theorem holderCount_counts_zero_balance_cex :
    getHolderCount (some [[⟨some 7, 0⟩]]) = 1 ∧
    specDistinctPositiveHolders [[⟨some 7, 0⟩]] = 0 := by
  constructor
  · show (holderPagesLoop [[⟨some 7, 0⟩]] ∅).card = 1
    rw [holderPagesLoop_cons_short _ _ _ (by norm_num) (by norm_num)]
    simp [insertOwner]
  · unfold specDistinctPositiveHolders
    norm_num

lemma foldl_insertOwner_mapAmounts (g : ℚ → ℚ) (page : List TokenAccount)
    (s : Finset ℕ) :
    (page.map fun a => (⟨a.owner, g a.amount⟩ : TokenAccount)).foldl insertOwner s =
      page.foldl insertOwner s := by
  induction page generalizing s with
  | nil => rfl
  | cons a l ih => cases ha : a.owner <;> simp [List.foldl_cons, insertOwner, ha, ih]

lemma holderPagesLoop_mapAmounts (g : ℚ → ℚ) (pages : List (List TokenAccount))
    (s : Finset ℕ) :
    holderPagesLoop (mapAmounts g pages) s = holderPagesLoop pages s := by
  induction pages generalizing s with
  | nil => rfl
  | cons page rest ih =>
      simp only [mapAmounts, List.map_cons] at *
      simp only [holderPagesLoop, List.length_map]
      split_ifs
      · rfl
      · exact foldl_insertOwner_mapAmounts g page s
      · rw [foldl_insertOwner_mapAmounts]
        exact ih _

/-- Claim C8 (amended): the holder count is the number of distinct owner
addresses among the enumerated token accounts, regardless of balances:
re-tagging every account's `amount` (in particular, setting them all to
zero) never changes the count, because `getHolderCount` only reads
`owner`. -/
theorem holderCount_ignores_amounts (g : ℚ → ℚ) (pages : List (List TokenAccount)) :
    getHolderCount (some (mapAmounts g pages)) = getHolderCount (some pages) := by
  show (holderPagesLoop (mapAmounts g pages) ∅).card = (holderPagesLoop pages ∅).card
  rw [holderPagesLoop_mapAmounts]

/-- Claim C9 counterexample: two requests that both arrive while the
cache is empty (before either refresh completes) start two upstream
refresh cycles, not one. -/
theorem stampede_two_refreshes_cex :
    (concRun ⟨false, ∅, 0⟩ [ConcEvent.arrive 1, ConcEvent.arrive 2]).refreshes = 2 ∧
    (2 : ℕ) ≠ 1 := by
  constructor
  · rfl
  · norm_num

/-- Claim C9 (amended): with no single-flight guard in the code, every
one of N concurrent requests arriving while the cache is empty or expired
starts its own upstream refresh cycle: N concurrent misses execute N
refresh cycles. -/
theorem concurrent_misses_each_refresh (s : ConcState) (rids : List ℕ)
    (h : s.cache = false) :
    (concRun s (rids.map ConcEvent.arrive)).refreshes = s.refreshes + rids.length := by
  induction rids generalizing s with
  | nil => simp [concRun]
  | cons r rest ih =>
      simp only [List.map_cons, concRun, List.foldl_cons]
      have hstep : concStep s (ConcEvent.arrive r) =
          { s with inFlight := insert r s.inFlight, refreshes := s.refreshes + 1 } := by
        simp [concStep, h]
      rw [hstep]
      have := ih { s with inFlight := insert r s.inFlight, refreshes := s.refreshes + 1 }
        (by simp [h])
      simp only [concRun] at this
      rw [this]
      simp [List.length_cons]
      omega

theorem concurrent_misses_each_refresh_witness :
    (concRun ⟨false, ∅, 5⟩ ([3, 8, 21].map ConcEvent.arrive)).refreshes = 5 + 3 :=
  concurrent_misses_each_refresh ⟨false, ∅, 5⟩ [3, 8, 21] rfl

end Soba
